import Mathlib

/-!
Shallow embedding of `src/inc/oclalgo/opencl_queue.h` (namespace `oclalgo`).

The header wraps the OpenCL C++ API: it caches compiled programs by source
path and kernels by "path; kernelName", binds typed argument descriptors
(`cl_data_t<T, DT>`) to kernel argument slots, enqueues the kernel and
asynchronous read-backs for output arguments, and returns a `cl_future`
bundling the completion event, the allocated device buffers and the output
tuple.

The external OpenCL runtime (file system, compiler, kernel construction,
enqueue operations) is modelled by an `Env` of oracles; the wrapper's own
logic — cache bookkeeping, the order and kind of buffer allocations and
argument bindings, the indices used for read-backs, the composition of the
output tuple, and the error-handling policy — is translated function by
function from the source.  Machine side effects are made explicit:
`std::cout` output becomes a list of printed lines, enqueued commands and
bindings are returned as data, and the two caches (plus build/creation
counters as observation side channels) form a `QueueState` threaded through
`AddTask`.
-/

namespace oclalgo

/-- `enum DataType { IN, OUT, IN_OUT, LOCALE, VAR }` from the source. -/
inductive DataType where
  | IN
  | OUT
  | IN_OUT
  | LOCALE
  | VAR
deriving DecidableEq, Repr

/-- `cl_data_t<T, DT>`: a host reference (`host_ptr`, modelled as a host
memory identifier), a byte size, and the direction tag.  In C++ the tag is a
template parameter; the shallow embedding stores it as a field. -/
structure cl_data_t where
  io_type : DataType
  host_ptr : Nat
  size : Nat
deriving DecidableEq, Repr

/-- The memory-flag combinations used by `SetKernelArgs` when creating
`cl::Buffer` objects. -/
inductive MemFlags where
  | ReadOnlyCopyHostPtr
  | ReadWriteCopyHostPtr
  | WriteOnly
deriving DecidableEq, Repr

/-- A `cl::Buffer`: its creation flags, byte size, and the host pointer whose
contents were copied in at creation (`CL_MEM_COPY_HOST_PTR`), if any. -/
structure Buffer where
  flags : MemFlags
  size : Nat
  hostSrc : Option Nat
deriving DecidableEq, Repr

/-- The value passed to `cl::Kernel::setArg`: a device buffer, a
`cl::Local(size)` scratch reservation, or a scalar (`*clData.host_ptr`,
modelled as the value referenced by the descriptor's host pointer). -/
inductive ArgVal where
  | buf (b : Buffer)
  | localMem (size : Nat)
  | scalar (v : Nat)
deriving DecidableEq, Repr

/-- One `setArg(argIndex, v)` call recorded by the embedding. -/
structure Binding where
  argIndex : Nat
  val : ArgVal
deriving DecidableEq, Repr

/-- One `enqueueReadBuffer(buffers[argIndex], CL_FALSE, 0, size, host_ptr)`
call.  `buf = none` models an out-of-range `std::vector::operator[]` access
(undefined behaviour in C++). -/
structure ReadCmd where
  buf : Option Buffer
  size : Nat
  dest : Nat
deriving DecidableEq, Repr

/-- The `cl::Error` exceptions that can escape `AddTask`:
`buildError` from `clBuildProgram` (the only caught-and-rethrown one),
`kernelCreateError` from the `cl::Kernel` constructor (e.g. invalid kernel
name or unbuilt program), `enqueueError` from the enqueue operations. -/
inductive CLError where
  | buildError
  | kernelCreateError
  | enqueueError
deriving DecidableEq, Repr

/-- A `cl::Program` cache entry: the source text it was created from and
whether `build` succeeded on it.  (`programs_[path] = cl::Program(...)`
inserts an unbuilt program; `build` upgrades it in place.) -/
structure Program where
  source : String
  built : Bool
deriving DecidableEq, Repr

/-- A `cl::Kernel` handle: the source of the program it was created from,
the entry-point name, and a creation sequence number `gen` distinguishing
handles (the observation side channel for "a new kernel handle was
created"). -/
structure Kernel where
  progSource : String
  name : String
  gen : Nat
deriving DecidableEq, Repr

/-- The mutable state of one `OpenCLQueue`: the two unordered-map caches
(modelled as association lists) plus counters of `clBuildProgram` calls and
`cl::Kernel` constructions (observation side channels). -/
structure QueueState where
  programs : List (String × Program)
  kernels : List (String × Kernel)
  buildCount : Nat
  kernelCreateCount : Nat
deriving DecidableEq, Repr

/-- The external OpenCL runtime and file system, as oracles:
`fs` maps a path to its contents when the file is readable;
`buildOK` says whether `clBuildProgram` succeeds on a source text;
`buildLog` is the device build log for a source text;
`kernelOK` says whether a (built) program with the given source contains a
kernel of the given name; `enqueueOK` gates the enqueue operations. -/
structure Env where
  fs : String → Option String
  buildOK : String → Bool
  buildLog : String → String
  kernelOK : String → String → Bool
  enqueueOK : Bool

/-- `cl::NDRange`, carried through opaquely as a list of dimension sizes. -/
abbrev NDRange := List Nat

/-- `cl_future<T>`: completion event (opaque id), the device buffers kept
alive until consumption, and the materialized output tuple (here: the list
of out/in-out descriptors). -/
structure cl_future where
  event : Nat
  buffers : List Buffer
  out_val : List cl_data_t
deriving DecidableEq, Repr

/-- Everything one successful `AddTask` hands to the runtime and the caller:
the kernel used for `enqueueNDRangeKernel`, the recorded `setArg` calls, the
execution shape, the enqueued read-backs, and the returned future. -/
structure Submission where
  kernelUsed : Kernel
  bindings : List Binding
  offset : NDRange
  globalRange : NDRange
  localRange : NDRange
  reads : List ReadCmd
  future : cl_future
deriving DecidableEq, Repr

/-- Lookup in an `std::unordered_map` modelled as an association list
(`find` returning an iterator becomes an `Option`). -/
def mapFind {β : Type} (m : List (String × β)) (k : String) : Option β :=
  match m with
  | [] => none
  | (k1, v) :: rest => if k1 = k then some v else mapFind rest k

/-- `m[k] = v` on an `std::unordered_map`: insert or assign. -/
def mapInsert {β : Type} (m : List (String × β)) (k : String) (v : β) :
    List (String × β) :=
  match m with
  | [] => [(k, v)]
  | (k1, v1) :: rest =>
      if k1 = k then (k, v) :: rest else (k1, v1) :: mapInsert rest k v

/-- `ReturnOutData`: the two `enable_if` overloads collapse to a test on the
direction tag — an out/in-out descriptor contributes a singleton tuple, any
other descriptor contributes the empty tuple. -/
def ReturnOutData (data : cl_data_t) : List cl_data_t :=
  if data.io_type = DataType.OUT ∨ data.io_type = DataType.IN_OUT then [data] else []

/-- `ComposeOutTuple`: left-to-right concatenation of `ReturnOutData` over
the argument pack (the C++ base case is a single descriptor; the empty case
is added to model packs uniformly as lists). -/
def ComposeOutTuple : List cl_data_t → List cl_data_t
  | [] => []
  | d :: rest => ReturnOutData d ++ ComposeOutTuple rest

/-- Restatement of the spec's description of the output tuple — "a tuple of
only the out/in-out descriptors' payloads, in their original argument
order" — for comparison with `ComposeOutTuple`. -/
def specOutputs (descs : List cl_data_t) : List cl_data_t :=
  descs.filter fun d =>
    decide (d.io_type = DataType.OUT) || decide (d.io_type = DataType.IN_OUT)

/-- The single-descriptor `SetKernelArgs` overload: `switch (First::io_type)`.
Returns the updated `buffers` vector and the recorded `setArg` call.
IN: `CL_MEM_READ_ONLY | CL_MEM_COPY_HOST_PTR` buffer, pushed and bound;
IN_OUT: `CL_MEM_READ_WRITE | CL_MEM_COPY_HOST_PTR` buffer, pushed and bound;
OUT: `CL_MEM_WRITE_ONLY` buffer (no host copy), pushed and bound;
LOCALE: `cl::Local(size)` bound, no buffer pushed;
VAR: the scalar `*host_ptr` bound, no buffer pushed. -/
def setKernelArgsOne (argIndex : Nat) (buffers : List Buffer)
    (clData : cl_data_t) : List Buffer × Binding :=
  match clData.io_type with
  | DataType.IN =>
      let buffer : Buffer :=
        ⟨MemFlags.ReadOnlyCopyHostPtr, clData.size, some clData.host_ptr⟩
      (buffers ++ [buffer], ⟨argIndex, ArgVal.buf buffer⟩)
  | DataType.IN_OUT =>
      let buffer : Buffer :=
        ⟨MemFlags.ReadWriteCopyHostPtr, clData.size, some clData.host_ptr⟩
      (buffers ++ [buffer], ⟨argIndex, ArgVal.buf buffer⟩)
  | DataType.OUT =>
      let buffer : Buffer := ⟨MemFlags.WriteOnly, clData.size, none⟩
      (buffers ++ [buffer], ⟨argIndex, ArgVal.buf buffer⟩)
  | DataType.LOCALE =>
      (buffers, ⟨argIndex, ArgVal.localMem clData.size⟩)
  | DataType.VAR =>
      (buffers, ⟨argIndex, ArgVal.scalar clData.host_ptr⟩)

/-- The variadic `SetKernelArgs`: handles the first descriptor, then recurses
on the tail with `++argIndex`.  Returns the final `buffers` vector and the
`setArg` calls in execution order. -/
def SetKernelArgs (argIndex : Nat) (buffers : List Buffer) :
    List cl_data_t → List Buffer × List Binding
  | [] => (buffers, [])
  | d :: rest =>
      let r1 := setKernelArgsOne argIndex buffers d
      let r2 := SetKernelArgs (argIndex + 1) r1.1 rest
      (r2.1, r1.2 :: r2.2)

/-- The variadic `GetResults`: for each descriptor, if its tag is OUT or
IN_OUT, enqueue `enqueueReadBuffer(buffers[argIndex], CL_FALSE, 0,
clData.size, clData.host_ptr, NULL, event)`; recurse with `++argIndex`.
`buffers` is indexed with the *argument* index; `List.get?` models
`std::vector::operator[]`, with `none` for an out-of-range access. -/
def GetResults (argIndex : Nat) (buffers : List Buffer) :
    List cl_data_t → List ReadCmd
  | [] => []
  | d :: rest =>
      (if d.io_type = DataType.OUT ∨ d.io_type = DataType.IN_OUT then
        [⟨buffers.get? argIndex, d.size, d.host_ptr⟩]
      else []) ++ GetResults (argIndex + 1) buffers rest

/-- Reading the program source: `std::ifstream` + `istreambuf_iterator`.
A failed stream (unreadable path) yields the empty string — no exception is
thrown by the stream with default settings. -/
def readSourceFile (env : Env) (path : String) : String :=
  match env.fs path with
  | some s => s
  | none => ""

/-- `auto kernel_id_str = pathToProgram + "; " + kernelName;` -/
def kernelIdStr (pathToProgram kernelName : String) : String :=
  pathToProgram ++ "; " ++ kernelName

/-- The "fill OpenCL command queue" section of `AddTask`: look up the cached
kernel, set the arguments, enqueue the kernel, enqueue the read-backs, and
build the `cl_future`.  Enqueue failures (uncaught in the source) surface as
`enqueueError`; the `none` branch of the kernel lookup is unreachable from
`AddTask`. -/
def addTaskEnqueuePhase (env : Env) (s : QueueState) (kernelKey : String)
    (offset globalR localR : NDRange) (descs : List cl_data_t) :
    QueueState × List String × Except CLError Submission :=
  match mapFind s.kernels kernelKey with
  | none => (s, [], Except.error CLError.kernelCreateError)
  | some k =>
      if env.enqueueOK then
        (s, [],
          Except.ok
            ⟨k, (SetKernelArgs 0 [] descs).2, offset, globalR, localR,
              GetResults 0 (SetKernelArgs 0 [] descs).1 descs,
              ⟨0, (SetKernelArgs 0 [] descs).1, ComposeOutTuple descs⟩⟩)
      else (s, [], Except.error CLError.enqueueError)

/-- The "create OpenCL kernel" section of `AddTask`: if the program was
(re)built in this call (`build_flag`) or no kernel is cached under
`kernel_id_str`, construct `cl::Kernel(programs_[path], kernelName)` and
store it.  Kernel construction fails (uncaught) unless the program is built
and contains the kernel name. -/
def addTaskKernelPhase (env : Env) (s : QueueState)
    (pathToProgram kernelName : String) (offset globalR localR : NDRange)
    (descs : List cl_data_t) (build_flag : Bool) :
    QueueState × List String × Except CLError Submission :=
  if build_flag || (mapFind s.kernels (kernelIdStr pathToProgram kernelName)).isNone then
    match mapFind s.programs pathToProgram with
    | none => (s, [], Except.error CLError.kernelCreateError)
    | some prog =>
        if prog.built && env.kernelOK prog.source kernelName then
          addTaskEnqueuePhase env
            { s with
                kernels := mapInsert s.kernels (kernelIdStr pathToProgram kernelName)
                  ⟨prog.source, kernelName, s.kernelCreateCount⟩,
                kernelCreateCount := s.kernelCreateCount + 1 }
            (kernelIdStr pathToProgram kernelName) offset globalR localR descs
        else (s, [], Except.error CLError.kernelCreateError)
  else
    addTaskEnqueuePhase env s (kernelIdStr pathToProgram kernelName) offset globalR
      localR descs

/-- `OpenCLQueue::AddTask`.  The "load source code" section: if no program is
cached for the path, read the source (empty on failure), insert an unbuilt
program into the cache, then `build` it — on success the cache entry becomes
built and `build_flag` is set; on failure the build log is printed
(`"Build log:"` then the log text) and the build error is rethrown, with the
unbuilt cache entry left in place.  Then the kernel and enqueue sections.
Returns the new queue state, the lines printed to `std::cout`, and either
the raised `cl::Error` or the submission with its `cl_future`. -/
def AddTask (env : Env) (s : QueueState) (pathToProgram kernelName : String)
    (offset globalR localR : NDRange) (descs : List cl_data_t) :
    QueueState × List String × Except CLError Submission :=
  match mapFind s.programs pathToProgram with
  | some _ =>
      addTaskKernelPhase env s pathToProgram kernelName offset globalR localR
        descs false
  | none =>
      if env.buildOK (readSourceFile env pathToProgram) then
        addTaskKernelPhase env
          { s with
              programs :=
                mapInsert
                  (mapInsert s.programs pathToProgram
                    ⟨readSourceFile env pathToProgram, false⟩)
                  pathToProgram ⟨readSourceFile env pathToProgram, true⟩,
              buildCount := s.buildCount + 1 }
          pathToProgram kernelName offset globalR localR descs true
      else
        ({ s with
             programs := mapInsert s.programs pathToProgram
               ⟨readSourceFile env pathToProgram, false⟩,
             buildCount := s.buildCount + 1 },
         ["Build log:", env.buildLog (readSourceFile env pathToProgram)],
         Except.error CLError.buildError)

namespace cl_future

/-- `cl_future::get`: `event_.wait(); return out_val_;`.  The device command
queue is threaded explicitly to record that waiting enqueues nothing. -/
def get (f : cl_future) (queueCmds : List ReadCmd) :
    List cl_data_t × List ReadCmd :=
  (f.out_val, queueCmds)

/-- `cl_future::wait`: `event_.wait();` — blocks, enqueues nothing. -/
def wait (_f : cl_future) (queueCmds : List ReadCmd) : List ReadCmd :=
  queueCmds

end cl_future

/-- The behaviour claimed for one `setArg` call: the `i`-th descriptor is
bound at argument index `i`, with the binding kind determined by its
direction tag — IN: read-only buffer with immediate host copy; IN_OUT:
read-write buffer with immediate host copy; OUT: write-only buffer without
initial copy; LOCALE: device-local scratch of the descriptor's size, no
buffer; VAR: the scalar value, no buffer. -/
def bindsAsSpecified (i : Nat) (d : cl_data_t) (b : Binding) : Prop :=
  b.argIndex = i ∧
  (d.io_type = DataType.IN →
    b.val = ArgVal.buf ⟨MemFlags.ReadOnlyCopyHostPtr, d.size, some d.host_ptr⟩) ∧
  (d.io_type = DataType.IN_OUT →
    b.val = ArgVal.buf ⟨MemFlags.ReadWriteCopyHostPtr, d.size, some d.host_ptr⟩) ∧
  (d.io_type = DataType.OUT →
    b.val = ArgVal.buf ⟨MemFlags.WriteOnly, d.size, none⟩) ∧
  (d.io_type = DataType.LOCALE → b.val = ArgVal.localMem d.size) ∧
  (d.io_type = DataType.VAR → b.val = ArgVal.scalar d.host_ptr)

/-! ### Concrete runtimes, queues and argument lists used as test inputs -/

/-- A permissive runtime: every path is readable, every build succeeds,
every kernel name resolves, enqueues succeed. -/
def envPermissive : Env :=
  ⟨fun p => some ("// " ++ p), fun _ => true, fun _ => "", fun _ _ => true, true⟩

/-- A runtime whose compiler rejects every source, with a fixed build log. -/
def envBuildFail : Env :=
  ⟨fun _ => some "bad source", fun _ => false, fun _ => "device build log",
    fun _ _ => true, true⟩

/-- A runtime with no readable files; the (empty) program source builds
successfully but contains no kernel of any name — the realistic OpenCL
behaviour for an empty translation unit. -/
def envMissingFile : Env :=
  ⟨fun _ => none, fun _ => true, fun _ => "", fun _ _ => false, true⟩

/-- A freshly constructed queue: empty caches, zeroed counters. -/
def emptyQueue : QueueState := ⟨[], [], 0, 0⟩

/-- A queue whose kernel cache already holds a (stale) handle under the key
of path `"p"` and kernel `"k"`, while no program is cached for `"p"`. -/
def staleKernelQueue : QueueState :=
  ⟨[], [("p; k", ⟨"old source", "k", 77⟩)], 5, 78⟩

/-- A single plain input descriptor. -/
def dsIn : List cl_data_t := [⟨DataType.IN, 1, 4⟩]

/-- LOCALE then OUT then IN: a mix in which the OUT argument's read-back
indexes the buffers vector out of step with its own buffer. -/
def dsLocaleOutIn : List cl_data_t :=
  [⟨DataType.LOCALE, 0, 4⟩, ⟨DataType.OUT, 7, 8⟩, ⟨DataType.IN, 5, 12⟩]

/-- A mix exercising every direction tag. -/
def dsMix : List cl_data_t :=
  [⟨DataType.IN, 1, 4⟩, ⟨DataType.OUT, 2, 8⟩, ⟨DataType.LOCALE, 0, 16⟩,
   ⟨DataType.IN_OUT, 3, 12⟩, ⟨DataType.VAR, 9, 4⟩]

/-- The queue state after submitting `dsMix` to a fresh queue under
`envPermissive` with path "p.cl" and kernel "kern". -/
def mixState : QueueState :=
  ⟨[("p.cl", ⟨"// p.cl", true⟩)], [("p.cl; kern", ⟨"// p.cl", "kern", 0⟩)], 1, 1⟩

/-- The submission produced by that call. -/
def mixSubmission : Submission :=
  ⟨⟨"// p.cl", "kern", 0⟩,
   [⟨0, ArgVal.buf ⟨MemFlags.ReadOnlyCopyHostPtr, 4, some 1⟩⟩,
    ⟨1, ArgVal.buf ⟨MemFlags.WriteOnly, 8, none⟩⟩,
    ⟨2, ArgVal.localMem 16⟩,
    ⟨3, ArgVal.buf ⟨MemFlags.ReadWriteCopyHostPtr, 12, some 3⟩⟩,
    ⟨4, ArgVal.scalar 9⟩],
   [0], [4], [2],
   [⟨some ⟨MemFlags.WriteOnly, 8, none⟩, 8, 2⟩, ⟨none, 12, 3⟩],
   ⟨0,
    [⟨MemFlags.ReadOnlyCopyHostPtr, 4, some 1⟩, ⟨MemFlags.WriteOnly, 8, none⟩,
     ⟨MemFlags.ReadWriteCopyHostPtr, 12, some 3⟩],
    [⟨DataType.OUT, 2, 8⟩, ⟨DataType.IN_OUT, 3, 12⟩]⟩⟩

/-- The queue state after submitting `dsIn` to a fresh queue under
`envPermissive` with path "p" and kernel "k1". -/
def firstState : QueueState :=
  ⟨[("p", ⟨"// p", true⟩)], [("p; k1", ⟨"// p", "k1", 0⟩)], 1, 1⟩

/-- The submission produced by that call. -/
def firstSubmission : Submission :=
  ⟨⟨"// p", "k1", 0⟩,
   [⟨0, ArgVal.buf ⟨MemFlags.ReadOnlyCopyHostPtr, 4, some 1⟩⟩],
   [0], [2], [1], [],
   ⟨0, [⟨MemFlags.ReadOnlyCopyHostPtr, 4, some 1⟩], []⟩⟩

/-- Decidable equality of `Except` results, so that concrete runs can be
checked by evaluation. -/
instance {ε α : Type} [DecidableEq ε] [DecidableEq α] : DecidableEq (Except ε α) :=
  fun a b =>
    match a, b with
    | Except.ok x, Except.ok y =>
        if h : x = y then isTrue (congrArg Except.ok h)
        else isFalse fun hh => h (Except.ok.inj hh)
    | Except.error x, Except.error y =>
        if h : x = y then isTrue (congrArg Except.error h)
        else isFalse fun hh => h (Except.error.inj hh)
    | Except.ok _, Except.error _ => isFalse fun hh => Except.noConfusion hh
    | Except.error _, Except.ok _ => isFalse fun hh => Except.noConfusion hh

/-! ### Shared helper lemmas -/

@[simp]
theorem mapFind_nil {β : Type} (k : String) : mapFind ([] : List (String × β)) k = none := rfl

@[simp]
theorem mapFind_insert_same {β : Type} (m : List (String × β)) (k : String) (v : β) :
    mapFind (mapInsert m k v) k = some v := by
  induction m with
  | nil => simp [mapFind, mapInsert]
  | cons hd tl ih =>
      obtain ⟨k1, v1⟩ := hd
      by_cases h : k1 = k <;> simp [mapFind, mapInsert, h, ih]

theorem mapFind_insert_other {β : Type} (m : List (String × β)) (k k2 : String) (v : β)
    (h : k2 ≠ k) : mapFind (mapInsert m k v) k2 = mapFind m k2 := by
  have hne : k ≠ k2 := fun hh => h (Eq.symm hh)
  induction m with
  | nil => simp [mapFind, mapInsert, hne]
  | cons hd tl ih =>
      obtain ⟨k1, v1⟩ := hd
      by_cases h1 : k1 = k
      · subst h1
        simp [mapFind, mapInsert, hne]
      · simp [mapFind, mapInsert, h1, ih]

theorem mapInsert_insert_same {β : Type} (m : List (String × β)) (k : String) (v w : β) :
    mapInsert (mapInsert m k v) k w = mapInsert m k w := by
  induction m with
  | nil => simp [mapInsert]
  | cons hd tl ih =>
      obtain ⟨k1, v1⟩ := hd
      by_cases h : k1 = k <;> simp [mapInsert, h, ih]

theorem kernelIdStr_inj_name (path n1 n2 : String)
    (h : kernelIdStr path n1 = kernelIdStr path n2) : n1 = n2 := by
  have hd := congrArg String.data h
  simp only [kernelIdStr, String.data_append, List.append_assoc] at hd
  exact String.ext (List.append_cancel_left (List.append_cancel_left hd))

theorem composeOutTuple_eq_specOutputs (ds : List cl_data_t) :
    ComposeOutTuple ds = specOutputs ds := by
  induction ds with
  | nil => rfl
  | cons d rest ih =>
      cases hd : d.io_type <;>
        simp [ComposeOutTuple, ReturnOutData, specOutputs, List.filter_cons, hd, ih]

theorem specOutputs_nil_of_no_out (ds : List cl_data_t)
    (h : ∀ d ∈ ds, d.io_type = DataType.IN ∨ d.io_type = DataType.LOCALE ∨
      d.io_type = DataType.VAR) : specOutputs ds = [] := by

  rw [specOutputs, List.filter_eq_nil_iff]
  intro d hdmem
  rcases h d hdmem with h1 | h1 | h1 <;> simp [h1]

theorem setKernelArgs_bindings_length (ds : List cl_data_t) :
    ∀ (a : Nat) (bufs : List Buffer), (SetKernelArgs a bufs ds).2.length = ds.length := by
  induction ds with
  | nil => intro a bufs; rfl
  | cons d rest ih =>
      intro a bufs
      simp [SetKernelArgs, ih]

theorem addTaskEnqueuePhase_out_nil (env : Env) (s : QueueState) (key : String)
    (o g l : NDRange) (ds : List cl_data_t) :
    (addTaskEnqueuePhase env s key o g l ds).2.1 = [] := by
  unfold addTaskEnqueuePhase
  split
  · rfl
  · split <;> rfl

theorem addTaskKernelPhase_out_nil (env : Env) (s : QueueState) (path name : String)
    (o g l : NDRange) (ds : List cl_data_t) (bf : Bool) :
    (addTaskKernelPhase env s path name o g l ds bf).2.1 = [] := by
  unfold addTaskKernelPhase
  split
  · split
    · rfl
    · split
      · apply addTaskEnqueuePhase_out_nil
      · rfl
  · apply addTaskEnqueuePhase_out_nil

theorem addTaskEnqueuePhase_ok (env : Env) (s : QueueState) (key : String)
    (o g l : NDRange) (ds : List cl_data_t) (s2 : QueueState) (out : List String)
    (r : Submission)
    (h : addTaskEnqueuePhase env s key o g l ds = (s2, out, Except.ok r)) :
    s2 = s ∧ out = [] ∧ mapFind s.kernels key = some r.kernelUsed ∧
    r.bindings = (SetKernelArgs 0 [] ds).2 ∧
    r.reads = GetResults 0 (SetKernelArgs 0 [] ds).1 ds ∧
    r.future.out_val = ComposeOutTuple ds ∧
    r.future.buffers = (SetKernelArgs 0 [] ds).1 ∧
    env.enqueueOK = true := by
  unfold addTaskEnqueuePhase at h
  split at h
  · simp at h
  next k hk =>
    split at h
    next henq =>
      simp only [Prod.mk.injEq, Except.ok.injEq] at h
      obtain ⟨hs, hout, hr⟩ := h
      subst hs; subst hout; subst hr
      exact ⟨rfl, rfl, hk, rfl, rfl, rfl, rfl, henq⟩
    · simp at h

theorem addTaskKernelPhase_ok (env : Env) (s : QueueState) (path name : String)
    (o g l : NDRange) (ds : List cl_data_t) (bf : Bool) (s2 : QueueState)
    (out : List String) (r : Submission)
    (h : addTaskKernelPhase env s path name o g l ds bf = (s2, out, Except.ok r)) :
    ∃ s3 : QueueState,
      addTaskEnqueuePhase env s3 (kernelIdStr path name) o g l ds =
        (s2, out, Except.ok r) := by
  unfold addTaskKernelPhase at h
  split at h
  · split at h
    · simp at h
    · split at h
      · exact ⟨_, h⟩
      · simp at h
  · exact ⟨_, h⟩

theorem addTask_ok_submission (env : Env) (s : QueueState) (path name : String)
    (o g l : NDRange) (ds : List cl_data_t) (s2 : QueueState) (out : List String)
    (r : Submission)
    (h : AddTask env s path name o g l ds = (s2, out, Except.ok r)) :
    r.bindings = (SetKernelArgs 0 [] ds).2 ∧
    r.reads = GetResults 0 (SetKernelArgs 0 [] ds).1 ds ∧
    r.future.out_val = ComposeOutTuple ds ∧
    r.future.buffers = (SetKernelArgs 0 [] ds).1 := by
  have hk : ∃ s3 : QueueState,
      addTaskEnqueuePhase env s3 (kernelIdStr path name) o g l ds =
        (s2, out, Except.ok r) := by
    unfold AddTask at h
    split at h
    · exact addTaskKernelPhase_ok _ _ _ _ _ _ _ _ _ _ _ _ h
    · split at h
      · exact addTaskKernelPhase_ok _ _ _ _ _ _ _ _ _ _ _ _ h
      · simp at h
  obtain ⟨s3, h3⟩ := hk
  obtain ⟨-, -, -, hb, hre, hov, hbuf, -⟩ :=
    addTaskEnqueuePhase_ok _ _ _ _ _ _ _ _ _ _ h3
  exact ⟨hb, hre, hov, hbuf⟩

theorem setKernelArgs_get_bindsAsSpecified :
    ∀ (ds : List cl_data_t) (a : Nat) (bufs : List Buffer) (i : Nat)
      (d : cl_data_t) (b : Binding),
      ds.get? i = some d → (SetKernelArgs a bufs ds).2.get? i = some b →
      bindsAsSpecified (a + i) d b := by
  intro ds
  induction ds with
  | nil =>
      intro a bufs i d b hd hb
      simp at hd
  | cons d0 rest ih =>
      intro a bufs i d b hd hb
      cases i with
      | zero =>
          simp only [List.get?_cons_zero, Option.some.injEq] at hd
          simp only [SetKernelArgs, List.get?_cons_zero, Option.some.injEq] at hb
          subst hd
          subst hb
          cases hio : d0.io_type <;>
            simp [bindsAsSpecified, setKernelArgsOne, hio]
      | succ n =>
          simp only [List.get?_cons_succ] at hd
          simp only [SetKernelArgs, List.get?_cons_succ] at hb
          have hrec := ih (a + 1) (setKernelArgsOne a bufs d0).1 n d b hd hb
          have harith : a + (n + 1) = a + 1 + n := by omega
          rw [harith]
          exact hrec

theorem addTaskEnqueuePhase_state (env : Env) (s : QueueState) (key : String)
    (o g l : NDRange) (ds : List cl_data_t) :
    (addTaskEnqueuePhase env s key o g l ds).1 = s := by
  unfold addTaskEnqueuePhase
  split
  · rfl
  · split <;> rfl

theorem addTaskKernelPhase_programs (env : Env) (s : QueueState) (path name : String)
    (o g l : NDRange) (ds : List cl_data_t) (bf : Bool) :
    (addTaskKernelPhase env s path name o g l ds bf).1.programs = s.programs := by
  unfold addTaskKernelPhase
  split
  · split
    · rfl
    · split
      · rw [addTaskEnqueuePhase_state]
      · rfl
  · rw [addTaskEnqueuePhase_state]

theorem addTaskEnqueuePhase_env_congr (env1 env2 : Env) (s : QueueState)
    (key : String) (o g l : NDRange) (ds : List cl_data_t)
    (henq : env1.enqueueOK = env2.enqueueOK) :
    addTaskEnqueuePhase env1 s key o g l ds = addTaskEnqueuePhase env2 s key o g l ds := by
  unfold addTaskEnqueuePhase
  split
  · rfl
  · rw [henq]

theorem addTaskKernelPhase_env_congr (env1 env2 : Env) (s : QueueState)
    (path name : String) (o g l : NDRange) (ds : List cl_data_t) (bf : Bool)
    (hker : env1.kernelOK = env2.kernelOK)
    (henq : env1.enqueueOK = env2.enqueueOK) :
    addTaskKernelPhase env1 s path name o g l ds bf =
      addTaskKernelPhase env2 s path name o g l ds bf := by
  unfold addTaskKernelPhase
  rw [hker]
  split
  · split
    · rfl
    · split
      · exact addTaskEnqueuePhase_env_congr _ _ _ _ _ _ _ _ henq
      · rfl
  · exact addTaskEnqueuePhase_env_congr _ _ _ _ _ _ _ _ henq

theorem addTask_fresh_ok (env : Env) (s : QueueState) (path name : String)
    (o g l : NDRange) (ds : List cl_data_t) (s2 : QueueState) (out : List String)
    (r : Submission)
    (hfresh : mapFind s.programs path = none)
    (h : AddTask env s path name o g l ds = (s2, out, Except.ok r)) :
    env.buildOK (readSourceFile env path) = true ∧
    env.kernelOK (readSourceFile env path) name = true ∧
    env.enqueueOK = true ∧
    s2 = { programs := mapInsert s.programs path ⟨readSourceFile env path, true⟩,
           kernels := mapInsert s.kernels (kernelIdStr path name)
             ⟨readSourceFile env path, name, s.kernelCreateCount⟩,
           buildCount := s.buildCount + 1,
           kernelCreateCount := s.kernelCreateCount + 1 } := by
  unfold AddTask at h
  split at h
  next val hsome =>
    rw [hfresh] at hsome
    exact Option.noConfusion hsome
  next =>
    split at h
    next hbuild =>
      rw [mapInsert_insert_same] at h
      unfold addTaskKernelPhase at h
      split at h
      next =>
        split at h
        next hfound =>
          rw [mapFind_insert_same] at hfound
          exact Option.noConfusion hfound
        next prog hfound =>
          rw [mapFind_insert_same] at hfound
          injection hfound with hprog
          subst hprog
          split at h
          next hker =>
            simp only [Bool.and_eq_true] at hker
            obtain ⟨hs2, -, -, -, -, -, -, henq⟩ :=
              addTaskEnqueuePhase_ok _ _ _ _ _ _ _ _ _ _ h
            refine ⟨hbuild, hker.2, henq, ?_⟩
            rw [hs2]
          next =>
            exact absurd h (by simp)
      next hcond =>
        simp at hcond
    next hbuild =>
      exact absurd h (by simp)

/-! ### Claim theorems -/

/-- Claim C1 (code bug): the claim states that each OUT or IN_OUT argument's
read-back is enqueued from the device buffer allocated for that same
argument, for every mix of descriptor kinds.  The code indexes the
`buffers` vector with the *argument* index, but `SetKernelArgs` pushes a
buffer only for IN/OUT/IN_OUT descriptors, so any LOCALE or VAR descriptor
before an OUT/IN_OUT argument shifts the read out of step.  At the failing
input (LOCALE, OUT, IN): the OUT argument at index 1 is bound to its own
write-only buffer, but its read-back is enqueued from `buffers[1]`, which is
the IN argument's read-only buffer; the IN_OUT/OUT read can even index past
the end of the vector (undefined behaviour). -/
theorem getResults_wrong_buffer_at_failing_input :
    (AddTask envPermissive emptyQueue "p.cl" "kern" [0] [4] [2] dsLocaleOutIn).2.2.toOption.map
        Submission.reads =
      some [⟨some ⟨MemFlags.ReadOnlyCopyHostPtr, 12, some 5⟩, 8, 7⟩] ∧
    (AddTask envPermissive emptyQueue "p.cl" "kern" [0] [4] [2] dsLocaleOutIn).2.2.toOption.map
        (fun r => r.bindings.get? 1) =
      some (some ⟨1, ArgVal.buf ⟨MemFlags.WriteOnly, 8, none⟩⟩) ∧
    (⟨MemFlags.ReadOnlyCopyHostPtr, 12, some 5⟩ : Buffer) ≠
      ⟨MemFlags.WriteOnly, 8, none⟩ := by
  decide

/-- Claim C3: for every successful submission, the returned future's output
tuple is exactly the OUT/IN_OUT descriptors' payloads in original argument
order (the order-preserving filter `specOutputs`); in particular, with no
OUT or IN_OUT descriptor the output tuple is empty. -/
theorem addTask_output_tuple (env : Env) (s : QueueState) (path name : String)
    (o g l : NDRange) (ds : List cl_data_t) (s2 : QueueState) (out : List String)
    (r : Submission)
    (h : AddTask env s path name o g l ds = (s2, out, Except.ok r)) :
    r.future.out_val = specOutputs ds ∧
    ((∀ d ∈ ds, d.io_type = DataType.IN ∨ d.io_type = DataType.LOCALE ∨
        d.io_type = DataType.VAR) → r.future.out_val = []) := by
  obtain ⟨-, -, hov, -⟩ := addTask_ok_submission _ _ _ _ _ _ _ _ _ _ _ h
  rw [hov, composeOutTuple_eq_specOutputs]
  exact ⟨rfl, fun hno => specOutputs_nil_of_no_out ds hno⟩

/-- Witness for `addTask_output_tuple` at a concrete successful submission
mixing all five descriptor kinds. -/
theorem addTask_output_tuple_witness :
    AddTask envPermissive emptyQueue "p.cl" "kern" [0] [4] [2] dsMix =
      (mixState, [], Except.ok mixSubmission) ∧
    mixSubmission.future.out_val = specOutputs dsMix :=
  ⟨by decide,
   (addTask_output_tuple envPermissive emptyQueue "p.cl" "kern" [0] [4] [2] dsMix
      mixState [] mixSubmission (by decide)).1⟩

/-- Claim C6: for every successful submission, the i-th descriptor is bound
at kernel argument index i, and the binding is determined by its direction
tag exactly as `bindsAsSpecified` states (IN/IN_OUT: buffer with immediate
host copy; OUT: buffer with no initial copy; LOCALE: local scratch, no
buffer; VAR: scalar, no buffer). -/
theorem addTask_positional_binding (env : Env) (s : QueueState) (path name : String)
    (o g l : NDRange) (ds : List cl_data_t) (s2 : QueueState) (out : List String)
    (r : Submission)
    (h : AddTask env s path name o g l ds = (s2, out, Except.ok r)) :
    r.bindings.length = ds.length ∧
    ∀ i d b, ds.get? i = some d → r.bindings.get? i = some b →
      bindsAsSpecified i d b := by
  obtain ⟨hb, -, -, -⟩ := addTask_ok_submission _ _ _ _ _ _ _ _ _ _ _ h
  rw [hb]
  refine ⟨setKernelArgs_bindings_length ds 0 [], ?_⟩
  intro i d b hd hbi
  have hgen := setKernelArgs_get_bindsAsSpecified ds 0 [] i d b hd hbi
  rwa [Nat.zero_add] at hgen

/-- Witness for `addTask_positional_binding`: the IN_OUT descriptor at
position 3 of the all-kinds mix is bound at argument index 3 as a
read-write buffer with immediate host copy. -/
theorem addTask_positional_binding_witness :
    AddTask envPermissive emptyQueue "p.cl" "kern" [0] [4] [2] dsMix =
      (mixState, [], Except.ok mixSubmission) ∧
    dsMix.get? 3 = some ⟨DataType.IN_OUT, 3, 12⟩ ∧
    mixSubmission.bindings.get? 3 =
      some ⟨3, ArgVal.buf ⟨MemFlags.ReadWriteCopyHostPtr, 12, some 3⟩⟩ ∧
    bindsAsSpecified 3 ⟨DataType.IN_OUT, 3, 12⟩
      ⟨3, ArgVal.buf ⟨MemFlags.ReadWriteCopyHostPtr, 12, some 3⟩⟩ :=
  ⟨by decide, by decide, by decide,
   (addTask_positional_binding envPermissive emptyQueue "p.cl" "kern" [0] [4] [2] dsMix
      mixState [] mixSubmission (by decide)).2 3 _ _ (by decide) (by decide)⟩

/-- Claim C8: `wait` and `get` are idempotent — `get` always returns the
future's already-materialized output tuple, neither call enqueues any
device command, and iterating them any number of times leaves the command
queue unchanged. -/
theorem cl_future_get_wait_idempotent (f : cl_future) (q : List ReadCmd) (n : Nat) :
    cl_future.get f q = (f.out_val, q) ∧
    cl_future.wait f q = q ∧
    (cl_future.get f (cl_future.get f q).2).1 = (cl_future.get f q).1 ∧
    (fun qq => (cl_future.get f qq).2)^[n] q = q := by
  refine ⟨rfl, rfl, rfl, ?_⟩
  induction n with
  | zero => rfl
  | succ m ih =>
      rw [Function.iterate_succ_apply]
      exact ih

/-- Claim C9: the kernel cache key is `path ++ "; " ++ kernelName`, so the
two distinct pairs ("a", "b; c") and ("a; b", "c") share the cache key
"a; b; c".  After submitting ("a; b", "k1") (which compiles path "a; b")
and then ("a", "b; c") (which caches a kernel under "a; b; c"), a
submission with the second pair ("a; b", "c") finds both its program and
the colliding key cached: the queue state is left unchanged (no compile, no
kernel creation) and the kernel handle cached for ("a", "b; c") — whose
entry-point name is "b; c", not the requested "c" — is the one enqueued. -/
theorem kernel_cache_key_collision :
    (("a", "b; c") : String × String) ≠ (("a; b", "c") : String × String) ∧
    kernelIdStr "a" "b; c" = kernelIdStr "a; b" "c" ∧
    (let s1 := (AddTask envPermissive emptyQueue "a; b" "k1" [0] [2] [1] dsIn).1
     let s2 := (AddTask envPermissive s1 "a" "b; c" [0] [2] [1] dsIn).1
     let a3 := AddTask envPermissive s2 "a; b" "c" [0] [2] [1] dsIn
     a3.1 = s2 ∧
     a3.2.2.toOption.map Submission.kernelUsed =
       mapFind s2.kernels (kernelIdStr "a" "b; c") ∧
     a3.2.2.toOption.map (fun rr => rr.kernelUsed.name) = some "b; c") := by
  decide

/-- Claim C2 counterexample: a compile failure on first submission does NOT
leave the program cache unmodified — the entry inserted before the failed
`build` call is retained (holding the unbuilt program), poisoning the cache
for that path. -/
theorem compile_failure_leaves_entry_cex :
    emptyQueue.programs = [] ∧ emptyQueue.kernels = [] ∧
    (AddTask envBuildFail emptyQueue "p.cl" "k" [0] [2] [1] dsIn).1.programs =
      [("p.cl", ⟨"bad source", false⟩)] := by
  decide

/-- Claim C2 (amended): a compile failure on first submission inserts a
program cache entry for the path holding the failed, unbuilt program (the
kernel cache is unmodified), prints the device build log to the diagnostic
stream, and re-raises the build error — the raised error itself does not
carry the log text. -/
theorem compile_failure_cache_and_log (env : Env) (s : QueueState) (path name : String)
    (o g l : NDRange) (ds : List cl_data_t)
    (hfresh : mapFind s.programs path = none)
    (hfail : env.buildOK (readSourceFile env path) = false) :
    AddTask env s path name o g l ds =
      ({ s with
           programs := mapInsert s.programs path ⟨readSourceFile env path, false⟩,
           buildCount := s.buildCount + 1 },
       ["Build log:", env.buildLog (readSourceFile env path)],
       Except.error CLError.buildError) ∧
    (AddTask env s path name o g l ds).1.kernels = s.kernels := by
  have hmain : AddTask env s path name o g l ds =
      ({ s with
           programs := mapInsert s.programs path ⟨readSourceFile env path, false⟩,
           buildCount := s.buildCount + 1 },
       ["Build log:", env.buildLog (readSourceFile env path)],
       Except.error CLError.buildError) := by
    unfold AddTask
    split
    next val hsome =>
      rw [hfresh] at hsome
      exact Option.noConfusion hsome
    next =>
      split
      next hb =>
        rw [hfail] at hb
        exact Bool.noConfusion hb
      next => rfl
  exact ⟨hmain, by rw [hmain]⟩

/-- Witness for `compile_failure_cache_and_log` at a concrete failing
compile on a fresh queue. -/
theorem compile_failure_cache_and_log_witness :
    mapFind emptyQueue.programs "p.cl" = none ∧
    envBuildFail.buildOK (readSourceFile envBuildFail "p.cl") = false ∧
    AddTask envBuildFail emptyQueue "p.cl" "k" [0] [2] [1] dsIn =
      ({ emptyQueue with
           programs := mapInsert emptyQueue.programs "p.cl"
             ⟨readSourceFile envBuildFail "p.cl", false⟩,
           buildCount := emptyQueue.buildCount + 1 },
       ["Build log:", envBuildFail.buildLog (readSourceFile envBuildFail "p.cl")],
       Except.error CLError.buildError) :=
  ⟨rfl, rfl,
   (compile_failure_cache_and_log envBuildFail emptyQueue "p.cl" "k" [0] [2] [1] dsIn
      rfl rfl).1⟩

/-- Claim C5: in a submission in which the program was (re)compiled, the
kernel cache entry for (path, kernel name) is recreated from the newly
built program even if a handle already existed under that key — the new
entry carries the freshly read source and the current creation counter,
which is incremented. -/
theorem kernel_recreated_on_rebuild (env : Env) (s : QueueState) (path name : String)
    (o g l : NDRange) (ds : List cl_data_t) (kOld : Kernel)
    (hfresh : mapFind s.programs path = none)
    (hold : mapFind s.kernels (kernelIdStr path name) = some kOld)
    (hbuild : env.buildOK (readSourceFile env path) = true)
    (hker : env.kernelOK (readSourceFile env path) name = true) :
    mapFind (AddTask env s path name o g l ds).1.kernels (kernelIdStr path name) =
      some ⟨readSourceFile env path, name, s.kernelCreateCount⟩ ∧
    (AddTask env s path name o g l ds).1.kernelCreateCount =
      s.kernelCreateCount + 1 := by
  have hred : AddTask env s path name o g l ds =
      addTaskEnqueuePhase env
        { programs := mapInsert s.programs path ⟨readSourceFile env path, true⟩,
          kernels := mapInsert s.kernels (kernelIdStr path name)
            ⟨readSourceFile env path, name, s.kernelCreateCount⟩,
          buildCount := s.buildCount + 1,
          kernelCreateCount := s.kernelCreateCount + 1 }
        (kernelIdStr path name) o g l ds := by
    simp [AddTask, addTaskKernelPhase, hfresh, hbuild, hker, mapInsert_insert_same,
      mapFind_insert_same]
  rw [hred, addTaskEnqueuePhase_state]
  exact ⟨mapFind_insert_same _ _ _, rfl⟩

/-- Witness for `kernel_recreated_on_rebuild`: a queue holding a stale
kernel handle (generation 77) under "p; k" with no cached program for "p";
after the submission the entry is the freshly created handle. -/
theorem kernel_recreated_on_rebuild_witness :
    mapFind staleKernelQueue.programs "p" = none ∧
    mapFind staleKernelQueue.kernels (kernelIdStr "p" "k") =
      some ⟨"old source", "k", 77⟩ ∧
    mapFind (AddTask envPermissive staleKernelQueue "p" "k" [0] [2] [1] dsIn).1.kernels
        (kernelIdStr "p" "k") =
      some ⟨readSourceFile envPermissive "p", "k", staleKernelQueue.kernelCreateCount⟩ ∧
    (AddTask envPermissive staleKernelQueue "p" "k" [0] [2] [1] dsIn).1.kernelCreateCount =
      staleKernelQueue.kernelCreateCount + 1 :=
  ⟨rfl, by decide,
   (kernel_recreated_on_rebuild envPermissive staleKernelQueue "p" "k" [0] [2] [1] dsIn
      ⟨"old source", "k", 77⟩ rfl (by decide) rfl rfl).1,
   (kernel_recreated_on_rebuild envPermissive staleKernelQueue "p" "k" [0] [2] [1] dsIn
      ⟨"old source", "k", 77⟩ rfl (by decide) rfl rfl).2⟩

/-- Claim C7: compile failure is the only caught error path — whenever
anything is printed, it is the build log followed by the rethrown build
error; a compile failure on an uncached path prints the log and raises the
build error (no future is returned); and any error other than the build
error reaches the caller with nothing printed (propagated unchanged, not
caught at this layer). -/
theorem addTask_error_policy (env : Env) (s : QueueState) (path name : String)
    (o g l : NDRange) (ds : List cl_data_t) :
    ((AddTask env s path name o g l ds).2 =
        (["Build log:", env.buildLog (readSourceFile env path)],
          Except.error CLError.buildError) ∨
      (AddTask env s path name o g l ds).2.1 = []) ∧
    (mapFind s.programs path = none →
      env.buildOK (readSourceFile env path) = false →
      (AddTask env s path name o g l ds).2 =
        (["Build log:", env.buildLog (readSourceFile env path)],
          Except.error CLError.buildError)) ∧
    (∀ e : CLError, (AddTask env s path name o g l ds).2.2 = Except.error e →
      e ≠ CLError.buildError → (AddTask env s path name o g l ds).2.1 = []) := by
  have hmain : (AddTask env s path name o g l ds).2 =
      (["Build log:", env.buildLog (readSourceFile env path)],
        Except.error CLError.buildError) ∨
      (AddTask env s path name o g l ds).2.1 = [] := by
    unfold AddTask
    split
    · right
      exact addTaskKernelPhase_out_nil _ _ _ _ _ _ _ _ _
    · split
      · right
        exact addTaskKernelPhase_out_nil _ _ _ _ _ _ _ _ _
      · left
        rfl
  refine ⟨hmain, ?_, ?_⟩
  · intro hfresh hfail
    unfold AddTask
    split
    next val hsome =>
      rw [hfresh] at hsome
      exact Option.noConfusion hsome
    next =>
      split
      next hb =>
        rw [hfail] at hb
        exact Bool.noConfusion hb
      next => rfl
  · intro e he hne
    rcases hmain with hcase | hcase
    · rw [hcase] at he
      simp only [Except.error.injEq] at he
      exact absurd he.symm hne
    · exact hcase

/-- Witness for `addTask_error_policy`: the compile-failure branch prints
the log and raises the build error; a kernel-creation failure (missing file
runtime) raises its error with nothing printed. -/
theorem addTask_error_policy_witness :
    mapFind emptyQueue.programs "p.cl" = none ∧
    envBuildFail.buildOK (readSourceFile envBuildFail "p.cl") = false ∧
    (AddTask envBuildFail emptyQueue "p.cl" "k" [0] [2] [1] dsIn).2 =
      (["Build log:", envBuildFail.buildLog (readSourceFile envBuildFail "p.cl")],
        Except.error CLError.buildError) ∧
    (AddTask envMissingFile emptyQueue "m.cl" "k" [0] [2] [1] dsIn).2.2 =
      Except.error CLError.kernelCreateError ∧
    (AddTask envMissingFile emptyQueue "m.cl" "k" [0] [2] [1] dsIn).2.1 = [] :=
  ⟨rfl, rfl,
   (addTask_error_policy envBuildFail emptyQueue "p.cl" "k" [0] [2] [1] dsIn).2.1 rfl rfl,
   by decide,
   (addTask_error_policy envMissingFile emptyQueue "m.cl" "k" [0] [2] [1] dsIn).2.2
     CLError.kernelCreateError (by decide) (by decide)⟩

/-- Claim C10 counterexample: with a runtime that accepts the empty source
but (necessarily) has no kernel named "k" in the empty program — the
realistic OpenCL behaviour — a submission naming an unreadable file
surfaces as a kernel-creation error, not as a program build error,
refuting "a missing file can only surface as a program build error". -/
theorem missing_file_kernel_error_cex :
    envMissingFile.fs "missing.cl" = none ∧
    (AddTask envMissingFile emptyQueue "missing.cl" "k" [0] [2] [1] dsIn).2.2 =
      Except.error CLError.kernelCreateError ∧
    CLError.kernelCreateError ≠ CLError.buildError := by
  decide

/-- Claim C10 (amended): for a submission whose source path is unreadable,
no file-access error is raised: the failed read yields the empty string,
which is cached as the program's source and handed to the compiler — the
whole submission behaves exactly as if the path named an empty file, so
the failure, if any, comes from the downstream compile or kernel-creation
path, never from file access. -/
theorem missing_file_as_empty_source (env : Env) (s : QueueState) (path name : String)
    (o g l : NDRange) (ds : List cl_data_t)
    (hmiss : env.fs path = none)
    (hfresh : mapFind s.programs path = none) :
    readSourceFile env path = "" ∧
    mapFind (AddTask env s path name o g l ds).1.programs path =
      some ⟨"", env.buildOK ""⟩ ∧
    AddTask env s path name o g l ds =
      AddTask { env with fs := fun p => if p = path then some "" else env.fs p }
        s path name o g l ds := by
  have hsrc : readSourceFile env path = "" := by
    unfold readSourceFile
    rw [hmiss]
  have hsrc2 : readSourceFile
      { env with fs := fun p => if p = path then some "" else env.fs p } path = "" := by
    unfold readSourceFile
    simp
  refine ⟨hsrc, ?_, ?_⟩
  · unfold AddTask
    split
    next val hsome =>
      rw [hfresh] at hsome
      exact Option.noConfusion hsome
    next =>
      rw [hsrc]
      cases hb : env.buildOK "" with
      | true =>
          simp [hb, addTaskKernelPhase_programs, mapInsert_insert_same,
            mapFind_insert_same]
      | false =>
          simp [hb, mapFind_insert_same]
  · unfold AddTask
    split
    next val hsome =>
      rw [hfresh] at hsome
      exact Option.noConfusion hsome
    next =>
      rw [hsrc, hsrc2]
      dsimp only
      split
      · exact addTaskKernelPhase_env_congr _ _ _ _ _ _ _ _ _ _ rfl rfl
      · rfl

/-- Witness for `missing_file_as_empty_source` on a fresh queue with an
unreadable path. -/
theorem missing_file_as_empty_source_witness :
    envMissingFile.fs "missing.cl" = none ∧
    mapFind emptyQueue.programs "missing.cl" = none ∧
    readSourceFile envMissingFile "missing.cl" = "" ∧
    mapFind (AddTask envMissingFile emptyQueue "missing.cl" "k" [0] [2] [1] dsIn).1.programs
        "missing.cl" = some ⟨"", envMissingFile.buildOK ""⟩ :=
  ⟨rfl, rfl,
   (missing_file_as_empty_source envMissingFile emptyQueue "missing.cl" "k" [0] [2] [1]
      dsIn rfl rfl).1,
   (missing_file_as_empty_source envMissingFile emptyQueue "missing.cl" "k" [0] [2] [1]
      dsIn rfl rfl).2.1⟩

/-- Claim C4: after a successful first submission that compiled `path` and
cached the kernel for `(path, k1)`, a second submission of the same pair
leaves the queue state entirely unchanged (no recompilation, no kernel
creation, caches untouched) and enqueues exactly the cached kernel handle;
a submission with a different kernel name `k2` for the already-compiled
path performs no build (program reused, program cache and build counter
unchanged) but creates a new kernel handle from the cached program,
incrementing the creation counter. -/
theorem addTask_cache_reuse (env : Env) (s0 s1 : QueueState) (path k1 k2 : String)
    (o g l o2 g2 l2 : NDRange) (ds ds2 : List cl_data_t) (out : List String)
    (r : Submission)
    (hfresh : mapFind s0.programs path = none)
    (h : AddTask env s0 path k1 o g l ds = (s1, out, Except.ok r))
    (hk2 : k2 ≠ k1)
    (hkey2 : mapFind s0.kernels (kernelIdStr path k2) = none)
    (hker2 : env.kernelOK (readSourceFile env path) k2 = true) :
    ((AddTask env s1 path k1 o2 g2 l2 ds2).1 = s1 ∧
      (AddTask env s1 path k1 o2 g2 l2 ds2).2.2.toOption.map Submission.kernelUsed =
        mapFind s1.kernels (kernelIdStr path k1)) ∧
    ((AddTask env s1 path k2 o2 g2 l2 ds2).1.buildCount = s1.buildCount ∧
      (AddTask env s1 path k2 o2 g2 l2 ds2).1.programs = s1.programs ∧
      (AddTask env s1 path k2 o2 g2 l2 ds2).1.kernelCreateCount =
        s1.kernelCreateCount + 1 ∧
      mapFind (AddTask env s1 path k2 o2 g2 l2 ds2).1.kernels (kernelIdStr path k2) =
        some ⟨readSourceFile env path, k2, s1.kernelCreateCount⟩) := by
  obtain ⟨hbuild, hker1, henq, hchar⟩ :=
    addTask_fresh_ok env s0 path k1 o g l ds s1 out r hfresh h
  subst hchar
  have hkeyne : kernelIdStr path k2 ≠ kernelIdStr path k1 :=
    fun hh => hk2 (kernelIdStr_inj_name path k2 k1 hh)
  have hfind2 : mapFind
      (mapInsert s0.kernels (kernelIdStr path k1)
        ⟨readSourceFile env path, k1, s0.kernelCreateCount⟩)
      (kernelIdStr path k2) = none := by
    rw [mapFind_insert_other _ _ _ _ hkeyne, hkey2]
  refine ⟨⟨?_, ?_⟩, ?_, ?_, ?_, ?_⟩ <;>
    simp [AddTask, addTaskKernelPhase, addTaskEnqueuePhase, mapFind_insert_same,
      hfind2, hker2, henq, Except.toOption]

/-- Witness for `addTask_cache_reuse`: resubmitting ("p", "k1") after its
first successful submission leaves the state unchanged; submitting
("p", "k2") afterwards creates one new kernel handle. -/
theorem addTask_cache_reuse_witness :
    AddTask envPermissive emptyQueue "p" "k1" [0] [2] [1] dsIn =
      (firstState, [], Except.ok firstSubmission) ∧
    (AddTask envPermissive firstState "p" "k1" [0] [2] [1] dsIn).1 = firstState ∧
    (AddTask envPermissive firstState "p" "k2" [0] [2] [1] dsIn).1.kernelCreateCount =
      firstState.kernelCreateCount + 1 :=
  ⟨by decide,
   (addTask_cache_reuse envPermissive emptyQueue firstState "p" "k1" "k2" [0] [2] [1]
      [0] [2] [1] dsIn dsIn [] firstSubmission rfl (by decide) (by decide) rfl
      rfl).1.1,
   (addTask_cache_reuse envPermissive emptyQueue firstState "p" "k1" "k2" [0] [2] [1]
      [0] [2] [1] dsIn dsIn [] firstSubmission rfl (by decide) (by decide) rfl
      rfl).2.2.2.1⟩

end oclalgo
